import Mathlib

/-!
Verification of the myconfigs repository scripts.

This file gives a shallow embedding of the parts of the repository that the
documented claims talk about:

* the paginated window state and its Next/Previous updates shared by
  yt-browser4.py and yt-browser2.py (globals PLAYLIST_START, PLAYLIST_END),
* the run_yt_dlp wrapper (command construction, failure handling,
  notifications),
* the page-level navigator loop of playlist_explorer in both browsers,
  driven by a script of Selection-UI return values and a script of
  fetch outcomes,
* the item action menu of yt-browser2.py (audio-only / autoplay toggles,
  Watch, Download) including the player command construction,
* the launcher selection wrapper (rofi and fzf result handling),
* the Fibonacci printer fibonacci.py.

Machine integers do not overflow in these scripts (Python integers are
unbounded), so window bounds are modelled as Int.  The external world
(subprocesses, the selection UI) is modelled by explicit scripts of
outcomes; side effects are collected in explicit traces.  The interpreters
are fuel-based total functions; running out of fuel or of scripted input is
reported as a distinguished outcome.  The model fixes the default
configuration of the scripts: ENABLE_PREVIEW "false", PREFERRED_BROWSER ""
(no extra yt-dlp arguments), and it assumes fetched entry lists contain no
null entries.
-/

namespace Myconfigs

/-! ## Python string primitives used by the scripts -/

/-- Whitespace characters stripped by Python str.strip / int() (ASCII part). -/
def pyIsWs (c : Char) : Bool :=
  c == ' ' || c == '\t' || c == '\n' || c == '\r' || c == Char.ofNat 11 || c == Char.ofNat 12

/-- Python str.strip(): remove leading and trailing whitespace. -/
def pyStrip (s : String) : String :=
  String.mk (((s.data.dropWhile pyIsWs).reverse.dropWhile pyIsWs).reverse)

/-- Python str.splitlines() restricted to the line endings produced by the
subprocesses here (newline and carriage return); the empty string yields
the empty list and a trailing line ending produces no extra element. -/
def pySplitlinesGo : List Char → List Char → List (List Char)
  | [], acc => if acc.isEmpty then [] else [acc.reverse]
  | '\r' :: '\n' :: t, acc => acc.reverse :: pySplitlinesGo t []
  | '\n' :: t, acc => acc.reverse :: pySplitlinesGo t []
  | '\r' :: t, acc => acc.reverse :: pySplitlinesGo t []
  | c :: t, acc => pySplitlinesGo t (c :: acc)

/-- Python str.splitlines() (wrapper on strings). -/
def pySplitlines (s : String) : List String :=
  (pySplitlinesGo s.data []).map String.mk

/-- Whether the first list is an element-wise lead of the second. -/
def listLeadMatch [DecidableEq α] : List α → List α → Bool
  | [], _ => true
  | _ :: _, [] => false
  | a :: as, b :: bs => a == b && listLeadMatch as bs

/-- Whether needle occurs contiguously inside hay. -/
def listHasSub [DecidableEq α] (needle : List α) : List α → Bool
  | [] => needle.isEmpty
  | b :: bs => listLeadMatch needle (b :: bs) || listHasSub needle bs

/-- Python substring containment test, needle in hay. -/
def strContainsSub (hay needle : String) : Bool :=
  listHasSub needle.data hay.data

/-- Digit run with single underscores between digits, as accepted by
Python int() after an optional sign. -/
def pyDigitsRest : List Char → Bool
  | [] => true
  | '_' :: c :: t => c.isDigit && pyDigitsRest (c :: t)
  | c :: t => c.isDigit && pyDigitsRest t

/-- Nonempty digit body accepted by Python int(). -/
def pyDigitsOk : List Char → Bool
  | [] => false
  | c :: t => c.isDigit && pyDigitsRest t

/-- Numeric value of a digit body (underscores are separators). -/
def pyDigitsVal (cs : List Char) : Int :=
  cs.foldl (fun acc c => if c == '_' then acc else acc * 10 + ((c.toNat - '0'.toNat : Nat) : Int)) 0

/-- Python int(s): strip whitespace, optional sign, digits; None on
failure.  Restricted to ASCII digits and whitespace, which covers every
label and token the scripts generate. -/
def pyIntParse (s : String) : Option Int :=
  let cs := ((s.data.dropWhile pyIsWs).reverse.dropWhile pyIsWs).reverse
  match cs with
  | '+' :: rest => if pyDigitsOk rest then some (pyDigitsVal rest) else none
  | '-' :: rest => if pyDigitsOk rest then some (-(pyDigitsVal rest)) else none
  | rest => if pyDigitsOk rest then some (pyDigitsVal rest) else none

/-- First field of Python s.split(' '): everything before the first space. -/
def firstTok (s : String) : String :=
  String.mk (s.data.takeWhile fun c => !(c == ' '))

/-- Python list indexing semantics: a non-negative index must be below the
length, a negative index counts from the end; otherwise IndexError. -/
def pyIdx (len : Nat) (i : Int) : Option Nat :=
  if 0 ≤ i ∧ i < (len : Int) then some i.toNat
  else if -(len : Int) ≤ i ∧ i < 0 then some ((len : Int) + i).toNat
  else none

/-- Largest element of a list of naturals, if any. -/
def natListMax (l : List Nat) : Option Nat :=
  l.foldl (fun acc k => match acc with | none => some k | some m => some (Nat.max m k)) none

/-- End position of the match of the anchored Python regex used on page
selections, r-str caret [^0-9]* followed by two spaces: the greedy star
backtracks to the largest all-non-digit split point followed by two
spaces. -/
def ctrlMatchEnd (cs : List Char) : Option Nat :=
  natListMax ((List.range (cs.length + 1)).filter fun k =>
    ((cs.take k).all fun c => !c.isDigit) && ((cs.drop k).take 2 == [' ', ' ']))

/-- The page-level selection preprocessing
re.sub of an anchored non-digit run followed by two spaces with the empty
string (yt-browser4.py line 617, yt-browser2.py line 454): strips a
decorated icon from control selections while leaving numbered item
titles intact. -/
def stripCtrlSel (s : String) : String :=
  match ctrlMatchEnd s.data with
  | none => s
  | some k => String.mk (s.data.drop (k + 2))

/-- The action-menu selection preprocessing, re.sub of one character
followed by two spaces with the empty string, unanchored (yt-browser4.py
line 657, yt-browser2.py line 496): every leftmost non-overlapping match
of a non-newline character followed by two spaces is removed. -/
def subDotSpacesAux : Nat → List Char → List Char
  | 0, l => l
  | _ + 1, [] => []
  | n + 1, c :: t =>
    if !(c == '\n') && (t.take 2 == [' ', ' ']) then subDotSpacesAux n (t.drop 2)
    else c :: subDotSpacesAux n t

/-- Scan for the action-menu substitution: each position whose character
is no newline and is followed by two spaces starts a match of length
three, removed with the scan resuming after it; otherwise the character
is kept and the scan advances by one.  The bound is the input length,
which every step decreases. -/
def subDotSpaces (l : List Char) : List Char :=
  subDotSpacesAux l.length l

/-- The item-title preprocessing re.sub of an anchored digit run followed
by one space with the empty string (clean_title in both browsers): for the
anchored greedy pattern the only possible match takes the whole maximal
digit run, which must be followed by a space. -/
def stripNumTitle (s : String) : String :=
  let ds := s.data.takeWhile Char.isDigit
  match s.data.dropWhile Char.isDigit with
  | ' ' :: t => if ds.isEmpty then s else String.mk t
  | _ => s

/-! ## Window state and pagination (globals PLAYLIST_START / PLAYLIST_END) -/

/-- The pagination window, the pair of globals PLAYLIST_START and
PLAYLIST_END of the YouTube browsers. -/
structure Window where
  playlistStart : Int
  playlistEnd : Int
deriving DecidableEq

/-- The Next branch of playlist_explorer (yt-browser4.py lines 620-622,
yt-browser2.py lines 457-459): both bounds advance by the page size. -/
def nextWindow (P : Int) (w : Window) : Window :=
  ⟨w.playlistStart + P, w.playlistEnd + P⟩

/-- The Previous branch of yt-browser4.py playlist_explorer
(lines 626-630): both bounds retreat by the page size, PLAYLIST_START is
clamped to 1 when non-positive and PLAYLIST_END is clamped up to the page
size when less than or equal to it. -/
def prevWindow4 (P : Int) (w : Window) : Window :=
  let s := w.playlistStart - P
  let s := if s ≤ 0 then 1 else s
  let e := w.playlistEnd - P
  let e := if e ≤ P then P else e
  ⟨s, e⟩

/-- The Previous branch of yt-browser2.py playlist_explorer
(lines 463-468): as in yt-browser4.py but the PLAYLIST_END clamp uses a
strict comparison. -/
def prevWindow2 (P : Int) (w : Window) : Window :=
  let s := w.playlistStart - P
  let s := if s ≤ 0 then 1 else s
  let e := w.playlistEnd - P
  let e := if e < P then P else e
  ⟨s, e⟩

@[simp] theorem Window.playlistStart_mk (s e : Int) : (Window.mk s e).playlistStart = s := rfl

@[simp] theorem Window.playlistEnd_mk (s e : Int) : (Window.mk s e).playlistEnd = e := rfl

/-- Shape of every window the explorers can display for page size P:
either the first page (1, P) or a later page whose end is exactly
start + P - 1. -/
def WindowInv (P : Int) (w : Window) : Prop :=
  (w.playlistStart = 1 ∧ w.playlistEnd = P) ∨
    (2 ≤ w.playlistStart ∧ w.playlistEnd = w.playlistStart + P - 1)

instance (P : Int) (w : Window) : Decidable (WindowInv P w) := by
  unfold WindowInv; infer_instance

/-- Window states reachable in yt-browser4.py: the initial window and
everything obtained by Next and Previous actions. -/
inductive Reach4 (P : Int) : Window → Prop
  | init : Reach4 P ⟨1, P⟩
  | next {w} : Reach4 P w → Reach4 P (nextWindow P w)
  | prev {w} : Reach4 P w → Reach4 P (prevWindow4 P w)

/-- Window states reachable in yt-browser2.py. -/
inductive Reach2 (P : Int) : Window → Prop
  | init : Reach2 P ⟨1, P⟩
  | next {w} : Reach2 P w → Reach2 P (nextWindow P w)
  | prev {w} : Reach2 P w → Reach2 P (prevWindow2 P w)

theorem windowInv_next {P : Int} {w : Window} (hP : 1 ≤ P) (h : WindowInv P w) :
    WindowInv P (nextWindow P w) := by
  obtain ⟨s, e⟩ := w
  simp only [WindowInv, nextWindow, Window.playlistStart_mk, Window.playlistEnd_mk] at h ⊢
  omega

theorem windowInv_prev4 {P : Int} {w : Window} (hP : 1 ≤ P) (h : WindowInv P w) :
    WindowInv P (prevWindow4 P w) := by
  obtain ⟨s, e⟩ := w
  simp only [WindowInv, prevWindow4, Window.playlistStart_mk, Window.playlistEnd_mk] at h ⊢
  split_ifs <;> omega

theorem windowInv_prev2 {P : Int} {w : Window} (hP : 1 ≤ P) (h : WindowInv P w) :
    WindowInv P (prevWindow2 P w) := by
  obtain ⟨s, e⟩ := w
  simp only [WindowInv, prevWindow2, Window.playlistStart_mk, Window.playlistEnd_mk] at h ⊢
  split_ifs <;> omega

/-- Every window reachable in yt-browser4.py satisfies the window shape
invariant. -/
theorem reach4_windowInv {P : Int} {w : Window} (hP : 1 ≤ P) (h : Reach4 P w) :
    WindowInv P w := by
  induction h with
  | init => left; exact ⟨rfl, rfl⟩
  | next _ ih => exact windowInv_next hP ih
  | prev _ ih => exact windowInv_prev4 hP ih

/-- Every window reachable in yt-browser2.py satisfies the window shape
invariant. -/
theorem reach2_windowInv {P : Int} {w : Window} (hP : 1 ≤ P) (h : Reach2 P w) :
    WindowInv P w := by
  induction h with
  | init => left; exact ⟨rfl, rfl⟩
  | next _ ih => exact windowInv_next hP ih
  | prev _ ih => exact windowInv_prev2 hP ih

/-- C2: for every window with PLAYLIST_START at least 1 and PLAYLIST_END
above PLAYLIST_START, the Previous action of either browser never produces
a non-positive PLAYLIST_START, and Previous from the first page
(PLAYLIST_START = 1, PLAYLIST_END = page size) leaves the window bounds of
either browser unchanged. -/
theorem c2_previous_clamped :
    (∀ (P : Int) (w : Window), 1 ≤ w.playlistStart → w.playlistStart < w.playlistEnd →
      1 ≤ (prevWindow4 P w).playlistStart ∧ 1 ≤ (prevWindow2 P w).playlistStart) ∧
    (∀ P : Int, 1 ≤ P →
      prevWindow4 P ⟨1, P⟩ = ⟨1, P⟩ ∧ prevWindow2 P ⟨1, P⟩ = ⟨1, P⟩) := by
  constructor
  · intro P w h1 h2
    obtain ⟨s, e⟩ := w
    simp only [Window.playlistStart_mk, Window.playlistEnd_mk] at h1 h2
    constructor <;>
      · simp only [prevWindow4, prevWindow2, Window.playlistStart_mk]
        split_ifs <;> omega
  · intro P hP
    constructor <;>
      · simp only [prevWindow4, prevWindow2, Window.mk.injEq]
        split_ifs <;> omega

/-- Witness for C2 at page size 30 from the window (31, 60) and the first
page (1, 30). -/
theorem c2_previous_clamped_witness :
    (1 ≤ (prevWindow4 30 ⟨31, 60⟩).playlistStart ∧ 1 ≤ (prevWindow2 30 ⟨31, 60⟩).playlistStart) ∧
    (prevWindow4 30 ⟨1, 30⟩ = ⟨1, 30⟩ ∧ prevWindow2 30 ⟨1, 30⟩ = ⟨1, 30⟩) :=
  ⟨c2_previous_clamped.1 30 ⟨31, 60⟩ (by decide) (by decide),
   c2_previous_clamped.2 30 (by decide)⟩

/-- C3: for every page size and every window state of the explorers on a
non-first page (PLAYLIST_START above 1; such states satisfy the window
shape invariant, proved for all reachable states in reach4_windowInv and
reach2_windowInv), Next followed by Previous restores both bounds exactly,
in yt-browser4.py and in yt-browser2.py. -/
theorem c3_next_previous_roundtrip (P : Int) (w : Window) (hP : 1 ≤ P)
    (hinv : WindowInv P w) (hs : 1 < w.playlistStart) :
    prevWindow4 P (nextWindow P w) = w ∧ prevWindow2 P (nextWindow P w) = w := by
  obtain ⟨s, e⟩ := w
  simp only [Window.playlistStart_mk] at hs
  rcases hinv with ⟨h1, h2⟩ | ⟨h1, h2⟩ <;>
    simp only [Window.playlistStart_mk, Window.playlistEnd_mk] at h1 h2
  · omega
  · constructor <;>
      · simp only [nextWindow, prevWindow4, prevWindow2, Window.mk.injEq]
        split_ifs <;> omega

/-- Witness for C3 at page size 30 from the second page (31, 60). -/
theorem c3_next_previous_roundtrip_witness :
    prevWindow4 30 (nextWindow 30 ⟨31, 60⟩) = ⟨31, 60⟩ ∧
    prevWindow2 30 (nextWindow 30 ⟨31, 60⟩) = ⟨31, 60⟩ :=
  c3_next_previous_roundtrip 30 ⟨31, 60⟩ (by decide) (by decide) (by decide)

/-! ## External collaborators: yt-dlp fetches and the launcher -/

/-- One entry of a fetched result page (a flat-playlist video record);
only the fields the navigator logic reads are modelled. -/
structure Entry where
  title : String
  url : String
deriving DecidableEq

/-- Outcome of one yt-dlp subprocess call, as observed by run_yt_dlp:
non-zero exit, zero exit with output json.loads rejects, or zero exit with
a parsed payload.  A payload of none models parsed JSON that is falsy or
has no entries key; some models a payload with an entries list. -/
inductive FetchOutcome where
  | exitNonZero
  | badPayload
  | ok (payload : Option (List Entry))
deriving DecidableEq

/-- The argument list built by run_yt_dlp (yt-browser4.py lines 420-428,
yt-browser2.py lines 308-312): the window bounds are passed as
playlist-start and playlist-end options, followed by the
PREFERRED_BROWSER cookie arguments and any extra arguments. -/
def ytDlpCmd (url : String) (w : Window) (browserArgs extraArgs : List String) : List String :=
  ["yt-dlp", url, "-J", "--flat-playlist", "--extractor-args", "youtubetab:approximate_date",
   "--playlist-start", toString w.playlistStart, "--playlist-end", toString w.playlistEnd]
    ++ browserArgs ++ extraArgs

/-- Failure handling of run_yt_dlp (yt-browser4.py lines 437-444,
yt-browser2.py lines 321-325): a non-zero exit sends one notification and
returns None; output that json.loads rejects returns None silently; a
parsed payload is returned as is.  The result is the returned value paired
with the notifications sent. -/
def runYtDlpResult : FetchOutcome → Option (List Entry) × List String
  | .exitNonZero => (none, ["Failed to fetch data : ("])
  | .badPayload => (none, [])
  | .ok payload => (payload, [])

/-- Number label for entry i of a page of count entries (both browsers):
one-based, zero-padded to two digits only when the page has fewer than
ten entries. -/
def padNum (count i : Nat) : String :=
  let n := toString (i + 1)
  if count < 10 ∧ n.length < 2 then "0" ++ n else n

/-- The in-place title renumbering performed at the top of every
playlist_explorer iteration when download_images is false (yt-browser4.py
lines 593-599, yt-browser2.py lines 432-438): each entry title gains a
number label followed by one space. -/
def renumberEntries (entries : List Entry) : List Entry :=
  entries.enum.map fun p => { p.2 with title := padNum entries.length p.1 ++ " " ++ p.2.title }

/-- Resolution of a non-control selection back to a page entry
(yt-browser4.py lines 639-643, yt-browser2.py lines 476-481): Python int()
of the first space-separated field, then Python list indexing at that
value minus one; None models the ValueError / IndexError path. -/
def resolveSelection (entries : List Entry) (sel : String) : Option (Nat × Entry) :=
  match pyIntParse (firstTok sel) with
  | none => none
  | some k =>
    match pyIdx entries.length (k - 1) with
    | none => none
    | some i => (entries.get? i).map fun e => (i, e)

/-- The rofi branch of launcher (yt-browser4.py lines 373-384,
yt-browser2.py lines 286-294): the stripped subprocess output, replaced by
the string Exit when it is empty. -/
def launcherRofi (stdoutText : String) : String :=
  let res := pyStrip stdoutText
  if res = "" then "Exit" else res

/-- The fzf branch of launcher (yt-browser4.py lines 410-418,
yt-browser2.py lines 301-306): the output is split into lines; no lines
yield the empty string; with a preview and at least two lines the second
line is returned, otherwise the first. -/
def launcherFzf (previewMode : Bool) (stdoutText : String) : String :=
  match pySplitlines stdoutText with
  | [] => ""
  | l0 :: rest =>
    if previewMode ∧ 2 ≤ rest.length + 1 then rest.headD l0 else l0

/-- The startup dependency check of both browsers (yt-browser4.py lines
945-948, yt-browser2.py lines 641-644): if any core dependency is not on
the PATH the process exits with status 1 before any menu runs. -/
def depsCheckExit (avail : String → Bool) : Option Nat :=
  if (["yt-dlp", "fzf", "jq"] : List String).all avail then none else some 1

/-! ## The page-level navigator loop of yt-browser4.py playlist_explorer

The loop (lines 587-643) is interpreted against a script of Selection-UI
return values and a script of fetch outcomes, with the issued yt-dlp
commands and the notifications collected as traces.  Entering the nested
item action menu is reported as a terminal observation of this model (the
action menu is modelled in full for yt-browser2.py below, where the claims
concern it).  The model fixes ENABLE_PREVIEW "false" and PREFERRED_BROWSER
"" (the script defaults), so the renumbering runs on every iteration and
run_yt_dlp receives no extra arguments. -/

/-- How the while loop of yt-browser4.py playlist_explorer ends: break
(line 588 on a missing payload, line 637 on Back or an empty selection),
the early return of Main Menu (line 634), byebye on Exit (line 636), a
resolved item selection (line 641), or exhaustion of fuel or scripted
input. -/
inductive LoopEnd4 where
  | broke (w : Window)
  | mainMenu (w : Window)
  | terminated
  | itemMenu (w : Window) (entries : List Entry) (idx : Nat)
  | fuelOut (w : Window)
  | inputOut (w : Window)
deriving DecidableEq

/-- One run of the while loop of yt-browser4.py playlist_explorer
(lines 587-643), without the trailing global reset.  State: window w,
current search_results (none when falsy or without entries), the script of
selections, the script of fetch outcomes, and the traces of issued yt-dlp
commands and notifications. -/
def pageCore4 (P : Int) (url : String) :
    Nat → Window → Option (List Entry) → List String → List FetchOutcome →
    List (List String) → List String → LoopEnd4 × List (List String) × List String
  | 0, w, _, _, _, fc, ns => (.fuelOut w, fc, ns)
  | _ + 1, w, none, _, _, fc, ns => (.broke w, fc, ns)
  | fuel + 1, w, some rawEntries, sels, fts, fc, ns =>
    let entries := renumberEntries rawEntries
    match sels with
    | [] => (.inputOut w, fc, ns)
    | selRaw :: restSels =>
      let sel := stripCtrlSel selRaw
      if sel = "Next" then
        let w2 := nextWindow P w
        match fts with
        | [] => (.inputOut w2, fc, ns)
        | f :: restF =>
          let r := runYtDlpResult f
          pageCore4 P url fuel w2 r.1 restSels restF (fc ++ [ytDlpCmd url w2 [] []]) (ns ++ r.2)
      else if sel = "Previous" then
        let w2 := prevWindow4 P w
        match fts with
        | [] => (.inputOut w2, fc, ns)
        | f :: restF =>
          let r := runYtDlpResult f
          pageCore4 P url fuel w2 r.1 restSels restF (fc ++ [ytDlpCmd url w2 [] []]) (ns ++ r.2)
      else if sel = "Main Menu" then (.mainMenu w, fc, ns)
      else if sel = "Back" ∨ sel = "" ∨ sel = "Exit" then
        if sel = "Exit" then (.terminated, fc, ns) else (.broke w, fc, ns)
      else
        match resolveSelection entries sel with
        | none => pageCore4 P url fuel w (some entries) restSels fts fc ns
        | some (idx, _) => (.itemMenu w entries idx, fc, ns)

/-- Result of a whole playlist_explorer session of yt-browser4.py as seen
by its caller. -/
inductive Session4 where
  | done (w : Window)
  | mainMenu (w : Window)
  | terminated
  | itemMenu (w : Window) (entries : List Entry) (idx : Nat)
  | fuelOut (w : Window)
  | inputOut (w : Window)
deriving DecidableEq

/-- playlist_explorer of yt-browser4.py including the trailing reset
(lines 747-748): when the while loop ends by break the globals are reset
to PLAYLIST_START = 1 and PLAYLIST_END = page size; the Main Menu early
return (line 634) skips the reset. -/
def sessionRun4 (P : Int) (url : String) (fuel : Nat) (w : Window)
    (results : Option (List Entry)) (sels : List String) (fts : List FetchOutcome)
    (fc : List (List String)) (ns : List String) :
    Session4 × List (List String) × List String :=
  match pageCore4 P url fuel w results sels fts fc ns with
  | (.broke _, fc, ns) => (.done ⟨1, P⟩, fc, ns)
  | (.mainMenu w, fc, ns) => (.mainMenu w, fc, ns)
  | (.terminated, fc, ns) => (.terminated, fc, ns)
  | (.itemMenu w es i, fc, ns) => (.itemMenu w es i, fc, ns)
  | (.fuelOut w, fc, ns) => (.fuelOut w, fc, ns)
  | (.inputOut w, fc, ns) => (.inputOut w, fc, ns)

/-! ### Helper laws of the yt-browser4.py page loop -/

/-- A missing or entry-less payload at the top of the loop ends the
session: break, then the trailing reset. -/
theorem sessionRun4_none (P : Int) (url : String) (fuel : Nat) (w : Window)
    (sels : List String) (fts : List FetchOutcome)
    (fc : List (List String)) (ns : List String) :
    sessionRun4 P url (fuel + 1) w none sels fts fc ns = (.done ⟨1, P⟩, fc, ns) := rfl

/-- A selection that is no control option and resolves to no entry makes
one loop iteration a silent re-iteration: same window, no fetch, no
notification, same page (with the titles renumbered in place again). -/
theorem pageCore4_invalid_selection (P : Int) (url : String) (fuel : Nat) (w : Window)
    (es : List Entry) (selRaw : String) (restSels : List String) (fts : List FetchOutcome)
    (fc : List (List String)) (ns : List String)
    (hN : stripCtrlSel selRaw ≠ "Next") (hP : stripCtrlSel selRaw ≠ "Previous")
    (hM : stripCtrlSel selRaw ≠ "Main Menu") (hB : stripCtrlSel selRaw ≠ "Back")
    (hE : stripCtrlSel selRaw ≠ "") (hX : stripCtrlSel selRaw ≠ "Exit")
    (hres : resolveSelection (renumberEntries es) (stripCtrlSel selRaw) = none) :
    pageCore4 P url (fuel + 1) w (some es) (selRaw :: restSels) fts fc ns =
      pageCore4 P url fuel w (some (renumberEntries es)) restSels fts fc ns := by
  have hOr : ¬ (stripCtrlSel selRaw = "Back" ∨ stripCtrlSel selRaw = "" ∨
      stripCtrlSel selRaw = "Exit") := fun h => h.elim hB fun h => h.elim hE hX
  simp only [pageCore4, if_neg hN, if_neg hP, if_neg hM, if_neg hOr, hres]

/-- Session-level version of pageCore4_invalid_selection. -/
theorem sessionRun4_invalid_selection (P : Int) (url : String) (fuel : Nat) (w : Window)
    (es : List Entry) (selRaw : String) (restSels : List String) (fts : List FetchOutcome)
    (fc : List (List String)) (ns : List String)
    (hN : stripCtrlSel selRaw ≠ "Next") (hP : stripCtrlSel selRaw ≠ "Previous")
    (hM : stripCtrlSel selRaw ≠ "Main Menu") (hB : stripCtrlSel selRaw ≠ "Back")
    (hE : stripCtrlSel selRaw ≠ "") (hX : stripCtrlSel selRaw ≠ "Exit")
    (hres : resolveSelection (renumberEntries es) (stripCtrlSel selRaw) = none) :
    sessionRun4 P url (fuel + 1) w (some es) (selRaw :: restSels) fts fc ns =
      sessionRun4 P url fuel w (some (renumberEntries es)) restSels fts fc ns := by
  unfold sessionRun4
  rw [pageCore4_invalid_selection P url fuel w es selRaw restSels fts fc ns
    hN hP hM hB hE hX hres]

/-! ### C1, C4, C5, C7, C10 -/

/-- C1 (amended): when a Next selection causes the page re-fetch to fail,
the window bounds first advance by one page size (the failing fetch is
issued with the advanced bounds), a notification is sent only in the
non-zero-exit case, and the session then ends without crashing, with the
globals reset to PLAYLIST_START = 1 and PLAYLIST_END = page size; the
previous page is not kept displayed. -/
theorem c1_next_fetch_failure_ends_session (P : Int) (url : String) (fuel : Nat)
    (w : Window) (es : List Entry) (f : FetchOutcome)
    (hf : f = .exitNonZero ∨ f = .badPayload) :
    sessionRun4 P url (fuel + 2) w (some es) ["Next"] [f] [] [] =
      (.done ⟨1, P⟩, [ytDlpCmd url (nextWindow P w) [] []],
        if f = .exitNonZero then ["Failed to fetch data : ("] else []) := by
  rcases hf with h | h <;> subst h <;> rfl

/-- Witness for C1 at page size 30 from the window (61, 90) with an
unparseable payload. -/
theorem c1_next_fetch_failure_witness :
    sessionRun4 30 "u" 2 ⟨61, 90⟩ (some []) ["Next"] [.badPayload] [] [] =
      (.done ⟨1, 30⟩, [ytDlpCmd "u" (nextWindow 30 ⟨61, 90⟩) [] []], []) := by
  have h := c1_next_fetch_failure_ends_session 30 "u" 0 ⟨61, 90⟩ [] .badPayload (Or.inr rfl)
  simpa using h

/-- C1 counterexample: from the window (31, 60), a Next selection whose
re-fetch exits non-zero ends the session (the loop breaks instead of
keeping the previous page displayed) and leaves the globals at (1, 30),
not at their pre-selection values (31, 60); the failing fetch was issued
with the advanced bounds 61 and 90. -/
theorem c1_counterexample :
    sessionRun4 30 "u" 2 ⟨31, 60⟩ (some []) ["Next"] [.exitNonZero] [] [] =
      (.done ⟨1, 30⟩,
       [["yt-dlp", "u", "-J", "--flat-playlist", "--extractor-args",
         "youtubetab:approximate_date", "--playlist-start", "61", "--playlist-end", "90"]],
       ["Failed to fetch data : ("]) ∧
    Window.mk 1 30 ≠ Window.mk 31 60 :=
  ⟨by decide, by decide⟩

/-- C4: from page size 30 and window (1, 30), a Next selection advances
the window to (31, 60) and issues exactly one run_yt_dlp call whose
command carries exactly those bounds as playlist-start and
playlist-end. -/
theorem c4_next_single_refetch (url : String) (es es2 : List Entry) :
    sessionRun4 30 url 2 ⟨1, 30⟩ (some es) ["Next"] [.ok (some es2)] [] [] =
      (.inputOut ⟨31, 60⟩,
       [["yt-dlp", url, "-J", "--flat-playlist", "--extractor-args",
         "youtubetab:approximate_date", "--playlist-start", "31", "--playlist-end", "60"]],
       []) ∧
    nextWindow 30 ⟨1, 30⟩ = ⟨31, 60⟩ :=
  ⟨rfl, rfl⟩

/-- C5 (amended): a non-empty selection that is no control option and does
not resolve to an entry of the current page (its first space-separated
field is not a Python integer, or the index it denotes is out of range
under Python list indexing) leaves the Navigation State unchanged and
redisplays the same page: the loop silently re-iterates with the same
window, no fetch and no notification.  An empty selection instead ends the
session like Back, resetting the window bounds (see the
counterexample). -/
theorem c5_invalid_selection_reloops (P : Int) (url : String) (fuel : Nat) (w : Window)
    (es : List Entry) (selRaw : String) (restSels : List String) (fts : List FetchOutcome)
    (fc : List (List String)) (ns : List String)
    (hN : stripCtrlSel selRaw ≠ "Next") (hP : stripCtrlSel selRaw ≠ "Previous")
    (hM : stripCtrlSel selRaw ≠ "Main Menu") (hB : stripCtrlSel selRaw ≠ "Back")
    (hE : stripCtrlSel selRaw ≠ "") (hX : stripCtrlSel selRaw ≠ "Exit")
    (hres : resolveSelection (renumberEntries es) (stripCtrlSel selRaw) = none) :
    sessionRun4 P url (fuel + 1) w (some es) (selRaw :: restSels) fts fc ns =
      sessionRun4 P url fuel w (some (renumberEntries es)) restSels fts fc ns :=
  sessionRun4_invalid_selection P url fuel w es selRaw restSels fts fc ns
    hN hP hM hB hE hX hres

/-- Witness for C5 on the unparseable selection string consisting of the
words stale selection. -/
theorem c5_invalid_selection_witness :
    sessionRun4 30 "u" 1 ⟨31, 60⟩ (some [⟨"T", "vu"⟩]) ["stale selection"] [] [] [] =
      sessionRun4 30 "u" 0 ⟨31, 60⟩ (some (renumberEntries [⟨"T", "vu"⟩])) [] [] [] [] :=
  c5_invalid_selection_reloops 30 "u" 0 ⟨31, 60⟩ [⟨"T", "vu"⟩] "stale selection" [] [] [] []
    (by decide) (by decide) (by decide) (by decide) (by decide) (by decide) (by decide)

/-- C5 counterexample: an empty selection string from the window (31, 60)
does not redisplay the same page with the state unchanged; it ends the
session (the Back branch of the loop) and resets the window to (1, 30). -/
theorem c5_counterexample :
    sessionRun4 30 "u" 1 ⟨31, 60⟩ (some [⟨"T", "vu"⟩]) [""] [] [] [] =
      (.done ⟨1, 30⟩, [], []) ∧
    Window.mk 1 30 ≠ Window.mk 31 60 :=
  ⟨by decide, by decide⟩

/-- C7 (amended): the error classes never propagate a fault out of the
navigator loop, but they are not handled identically: a non-zero external
exit sends the notification Failed to fetch data : ( and returns no
payload, a malformed payload returns no payload silently, both making the
explorer end the session normally (return to the previous menu level); a
user-input parse failure silently retries the same page render with the
state unchanged; and a missing core dependency (yt-dlp, fzf or jq) is
handled by the startup check, which terminates the process with status 1
before any loop runs. -/
theorem c7_error_paths :
    runYtDlpResult .exitNonZero = (none, ["Failed to fetch data : ("]) ∧
    runYtDlpResult .badPayload = (none, []) ∧
    (∀ (P : Int) (url : String) (fuel : Nat) (w : Window) (sels : List String)
       (fts : List FetchOutcome) (fc : List (List String)) (ns : List String),
       sessionRun4 P url (fuel + 1) w none sels fts fc ns = (.done ⟨1, P⟩, fc, ns)) ∧
    (∀ avail : String → Bool, avail "yt-dlp" = false → depsCheckExit avail = some 1) ∧
    (∀ (P : Int) (url : String) (fuel : Nat) (w : Window) (es : List Entry)
       (selRaw : String) (restSels : List String) (fts : List FetchOutcome)
       (fc : List (List String)) (ns : List String),
       stripCtrlSel selRaw ≠ "Next" → stripCtrlSel selRaw ≠ "Previous" →
       stripCtrlSel selRaw ≠ "Main Menu" → stripCtrlSel selRaw ≠ "Back" →
       stripCtrlSel selRaw ≠ "" → stripCtrlSel selRaw ≠ "Exit" →
       resolveSelection (renumberEntries es) (stripCtrlSel selRaw) = none →
       sessionRun4 P url (fuel + 1) w (some es) (selRaw :: restSels) fts fc ns =
         sessionRun4 P url fuel w (some (renumberEntries es)) restSels fts fc ns) := by
  refine ⟨rfl, rfl, sessionRun4_none, ?_, ?_⟩
  · intro avail h
    simp [depsCheckExit, h]
  · intro P url fuel w es selRaw restSels fts fc ns hN hP hM hB hE hX hres
    exact sessionRun4_invalid_selection P url fuel w es selRaw restSels fts fc ns
      hN hP hM hB hE hX hres

/-- Witness for C7: the dependency check fires when nothing is on the
PATH, and the parse-failure path re-iterates on the selection string
oops. -/
theorem c7_error_paths_witness :
    depsCheckExit (fun _ => false) = some 1 ∧
    sessionRun4 30 "u" 1 ⟨1, 30⟩ (some [⟨"T", "vu"⟩]) ["oops"] [] [] [] =
      sessionRun4 30 "u" 0 ⟨1, 30⟩ (some (renumberEntries [⟨"T", "vu"⟩])) [] [] [] [] :=
  ⟨c7_error_paths.2.2.2.1 (fun _ => false) rfl,
   c7_error_paths.2.2.2.2 30 "u" 0 ⟨1, 30⟩ [⟨"T", "vu"⟩] "oops" [] [] [] []
     (by decide) (by decide) (by decide) (by decide) (by decide) (by decide) (by decide)⟩

/-- C7 counterexample: the four error classes are not handled identically
with a user notification; the malformed-payload path of run_yt_dlp sends
no notification while the non-zero-exit path does. -/
theorem c7_counterexample :
    (runYtDlpResult .badPayload).2 = [] ∧
    (runYtDlpResult .exitNonZero).2 = ["Failed to fetch data : ("] :=
  ⟨rfl, rfl⟩

/-- C10: with the rofi selector, empty selector output makes launcher
return the string Exit, and an Exit selection terminates the whole process
from the page loop via byebye; with fzf, empty output makes launcher
return the empty string, which the page loop treats like Back, ending just
the session (control returns to the caller with the bounds reset). -/
theorem c10_rofi_empty_cancellation :
    launcherRofi "" = "Exit" ∧
    (∀ pm : Bool, launcherFzf pm "" = "") ∧
    (∀ (P : Int) (url : String) (fuel : Nat) (w : Window) (es : List Entry)
       (sels : List String) (fts : List FetchOutcome) (fc : List (List String))
       (ns : List String),
       sessionRun4 P url (fuel + 1) w (some es) (launcherRofi "" :: sels) fts fc ns =
         (.terminated, fc, ns)) ∧
    (∀ (P : Int) (url : String) (fuel : Nat) (w : Window) (es : List Entry)
       (sels : List String) (fts : List FetchOutcome) (fc : List (List String))
       (ns : List String) (pm : Bool),
       sessionRun4 P url (fuel + 1) w (some es) (launcherFzf pm "" :: sels) fts fc ns =
         (.done ⟨1, P⟩, fc, ns)) :=
  ⟨rfl, fun _ => rfl,
   fun _ _ _ _ _ _ _ _ _ => rfl,
   fun _ _ _ _ _ _ _ _ _ _ => rfl⟩

/-! ## yt-browser2.py: playlist_explorer with toggles and the item menu

yt-browser2.py adds the process-wide toggles AUDIO_ONLY_MODE and
AUTOPLAY_MODE (lines 82-83), an item action menu with Toggle Audio Only,
Toggle Autoplay, Watch and Download (lines 483-560), and no Main Menu
control.  The model below interprets the whole session against the same
kind of selection and fetch scripts, collecting all external effects. -/

/-- The global mutable state of yt-browser2.py read and written by
playlist_explorer: the window bounds and the two toggles. -/
structure Globals2 where
  window : Window
  audioOnlyMode : Bool
  autoplayMode : Bool
deriving DecidableEq

/-- External effects issued while the yt-browser2.py explorer runs. -/
inductive Effect2 where
  | fetch (cmd : List String)
  | notify (msg : String)
  | spawn (cmd : List String)
  | runBlocking (cmd : List String)
deriving DecidableEq

/-- The trailing global reset of yt-browser2.py playlist_explorer
(lines 562-563): only the window bounds are written; the toggles are not
touched. -/
def resetBounds2 (P : Int) (g : Globals2) : Globals2 :=
  { g with window := ⟨1, P⟩ }

/-- The Next branch of yt-browser2.py (lines 457-459) on the globals. -/
def applyNext2 (P : Int) (g : Globals2) : Globals2 :=
  { g with window := nextWindow P g.window }

/-- The Previous branch of yt-browser2.py (lines 463-468) on the
globals. -/
def applyPrev2 (P : Int) (g : Globals2) : Globals2 :=
  { g with window := prevWindow2 P g.window }

/-- The player command built by the Watch action (yt-browser2.py lines
518-523): for mpv, the audio-only arguments are appended exactly when
AUDIO_ONLY_MODE is set; for vlc, a video title and, when audio-only, the
no-video flag. -/
def playerCmd (player vidUrl cleanTitle : String) (audioOnly : Bool) : List String :=
  if player = "mpv" then
    [player, vidUrl] ++ (if audioOnly then ["--no-video", "--force-window=no"] else [])
  else if player = "vlc" then
    [player, vidUrl, "--video-title", cleanTitle] ++ (if audioOnly then ["--no-video"] else [])
  else [player, vidUrl]

/-- State handed back to the action menu when the Watch inner loop of
yt-browser2.py (lines 514-549) breaks. -/
structure WatchRes where
  g : Globals2
  results : Option (List Entry)
  entries : List Entry
  idx : Nat
  video : Entry
  cleanTitle : String
  fts : List FetchOutcome
  effs : List Effect2
deriving DecidableEq

/-- The Watch inner loop of yt-browser2.py (lines 514-549).  With
AUTOPLAY_MODE off the player is spawned detached and the loop breaks at
once.  With AUTOPLAY_MODE on the player run blocks, the current index
advances, and past the end of the page the window advances and the next
page is fetched; a failed fetch or an empty new page breaks the loop,
otherwise it continues on the new page.  Exhausted fuel or fetch script
returns the current state. -/
def watch2 (P : Int) (player url : String) :
    Nat → Globals2 → Option (List Entry) → List Entry → Nat → Entry → String →
    List FetchOutcome → List Effect2 → WatchRes
  | 0, g, res, entries, idx, video, ct, fts, effs => ⟨g, res, entries, idx, video, ct, fts, effs⟩
  | fuel + 1, g, res, entries, idx, video, ct, fts, effs =>
    let cmd := playerCmd player video.url ct g.audioOnlyMode
    if g.autoplayMode then
      let effs2 := effs ++ [Effect2.runBlocking cmd]
      let idx2 := idx + 1
      if entries.length ≤ idx2 then
        let g2 := applyNext2 P g
        match fts with
        | [] => ⟨g2, res, entries, idx2, video, ct, [], effs2⟩
        | f :: restF =>
          let r := runYtDlpResult f
          let effs3 := effs2 ++ [Effect2.fetch (ytDlpCmd url g2.window [] [])]
            ++ r.2.map Effect2.notify
          match r.1 with
          | none => ⟨g2, none, entries, idx2, video, ct, restF, effs3⟩
          | some newEntries =>
            match newEntries with
            | [] => ⟨g2, some [], [], 0, video, ct, restF, effs3⟩
            | v :: vs =>
              watch2 P player url fuel g2 (some (v :: vs)) (v :: vs) 0 v
                (stripNumTitle v.title) restF effs3
      else
        match entries.get? idx2 with
        | some v => watch2 P player url fuel g res entries idx2 v (stripNumTitle v.title) fts effs2
        | none => ⟨g, res, entries, idx2, video, ct, fts, effs2⟩
    else
      ⟨g, res, entries, idx, video, ct, fts, effs ++ [Effect2.spawn cmd]⟩

/-- How the action menu loop hands control back. -/
inductive ActExit where
  | terminated
  | back
  | fuelOut
  | inputOut
deriving DecidableEq

/-- Result of the action menu loop of yt-browser2.py. -/
structure ActRes where
  exit : ActExit
  g : Globals2
  results : Option (List Entry)
  sels : List String
  fts : List FetchOutcome
  effs : List Effect2
deriving DecidableEq

/-- The item action menu loop of yt-browser2.py (lines 483-560): the
selection is preprocessed by the unanchored icon-stripping substitution,
then dispatched in source order: Exit (byebye), Back or empty (break to
the page view), Toggle Audio Only and Toggle Autoplay by substring match
(flip and re-render), Watch (the inner loop above), Download (detached
yt-dlp download plus a notification); any other selection re-renders the
menu. -/
def action2 (P : Int) (player url ddir : String) :
    Nat → Globals2 → Option (List Entry) → List Entry → Nat → Entry → String →
    List String → List FetchOutcome → List Effect2 → ActRes
  | 0, g, res, _, _, _, _, sels, fts, effs => ⟨.fuelOut, g, res, sels, fts, effs⟩
  | fuel + 1, g, res, entries, idx, video, ct, sels, fts, effs =>
    match sels with
    | [] => ⟨.inputOut, g, res, sels, fts, effs⟩
    | aRaw :: restSels =>
      let a := String.mk (subDotSpaces aRaw.data)
      if a = "Exit" then ⟨.terminated, g, res, restSels, fts, effs⟩
      else if a = "Back" ∨ a = "" then ⟨.back, g, res, restSels, fts, effs⟩
      else if strContainsSub a "Toggle Audio Only" then
        action2 P player url ddir fuel { g with audioOnlyMode := !g.audioOnlyMode }
          res entries idx video ct restSels fts effs
      else if strContainsSub a "Toggle Autoplay" then
        action2 P player url ddir fuel { g with autoplayMode := !g.autoplayMode }
          res entries idx video ct restSels fts effs
      else if a = "Watch" then
        let wr := watch2 P player url fuel g res entries idx video ct fts effs
        action2 P player url ddir fuel wr.g wr.results wr.entries wr.idx wr.video
          wr.cleanTitle restSels wr.fts wr.effs
      else if a = "Download" then
        let folder := if g.audioOnlyMode then "audio" else "videos"
        let extArgs :=
          if g.audioOnlyMode then ["-x", "-f", "bestaudio", "--audio-format", "mp3"] else []
        let outTmpl := ddir ++ "/" ++ folder ++ "/individual/%(channel)s/%(title)s.%(ext)s"
        action2 P player url ddir fuel g res entries idx video ct restSels fts
          (effs ++ [Effect2.spawn (["yt-dlp", video.url, "--output", outTmpl] ++ extArgs),
                    Effect2.notify ("Started downloading " ++ ct)])
      else
        action2 P player url ddir fuel g res entries idx video ct restSels fts effs

/-- How the while loop of yt-browser2.py playlist_explorer ends. -/
inductive LoopEnd2 where
  | broke (g : Globals2)
  | terminated
  | fuelOut (g : Globals2)
  | inputOut (g : Globals2)
deriving DecidableEq

/-- One run of the while loop of yt-browser2.py playlist_explorer
(lines 427-560), without the trailing reset: as in yt-browser4.py but
with no Main Menu control and with the item action menu interpreted in
full; after the action menu breaks, the page loop continues with whatever
search_results, globals and scripts the menu left behind. -/
def pageCore2 (P : Int) (player url ddir : String) :
    Nat → Globals2 → Option (List Entry) → List String → List FetchOutcome →
    List Effect2 → LoopEnd2 × List Effect2
  | 0, g, _, _, _, effs => (.fuelOut g, effs)
  | _ + 1, g, none, _, _, effs => (.broke g, effs)
  | fuel + 1, g, some rawEntries, sels, fts, effs =>
    let entries := renumberEntries rawEntries
    match sels with
    | [] => (.inputOut g, effs)
    | selRaw :: restSels =>
      let sel := stripCtrlSel selRaw
      if sel = "Next" then
        let g2 := applyNext2 P g
        match fts with
        | [] => (.inputOut g2, effs)
        | f :: restF =>
          let r := runYtDlpResult f
          pageCore2 P player url ddir fuel g2 r.1 restSels restF
            (effs ++ [Effect2.fetch (ytDlpCmd url g2.window [] [])] ++ r.2.map Effect2.notify)
      else if sel = "Previous" then
        let g2 := applyPrev2 P g
        match fts with
        | [] => (.inputOut g2, effs)
        | f :: restF =>
          let r := runYtDlpResult f
          pageCore2 P player url ddir fuel g2 r.1 restSels restF
            (effs ++ [Effect2.fetch (ytDlpCmd url g2.window [] [])] ++ r.2.map Effect2.notify)
      else if sel = "Back" ∨ sel = "" ∨ sel = "Exit" then
        if sel = "Exit" then (.terminated, effs) else (.broke g, effs)
      else
        match resolveSelection entries sel with
        | none => pageCore2 P player url ddir fuel g (some entries) restSels fts effs
        | some (idx, video) =>
          let ar := action2 P player url ddir fuel g (some entries) entries idx video
            (stripNumTitle video.title) restSels fts effs
          match ar.exit with
          | .terminated => (.terminated, ar.effs)
          | .back => pageCore2 P player url ddir fuel ar.g ar.results ar.sels ar.fts ar.effs
          | .fuelOut => (.fuelOut ar.g, ar.effs)
          | .inputOut => (.inputOut ar.g, ar.effs)

/-- Result of a whole playlist_explorer session of yt-browser2.py. -/
inductive Session2 where
  | done (g : Globals2)
  | terminated
  | fuelOut (g : Globals2)
  | inputOut (g : Globals2)
deriving DecidableEq

/-- playlist_explorer of yt-browser2.py including the trailing reset
(lines 562-563): when the while loop ends by break, PLAYLIST_START and
PLAYLIST_END are reset to 1 and the page size; the toggles keep whatever
values they had. -/
def sessionRun2 (P : Int) (player url ddir : String) (fuel : Nat) (g : Globals2)
    (results : Option (List Entry)) (sels : List String) (fts : List FetchOutcome)
    (effs : List Effect2) : Session2 × List Effect2 :=
  match pageCore2 P player url ddir fuel g results sels fts effs with
  | (.broke g, effs) => (.done (resetBounds2 P g), effs)
  | (.terminated, effs) => (.terminated, effs)
  | (.fuelOut g, effs) => (.fuelOut g, effs)
  | (.inputOut g, effs) => (.inputOut g, effs)

/-! ### Substring length helpers -/

theorem listLeadMatch_length {α : Type} [DecidableEq α] :
    ∀ (n h : List α), listLeadMatch n h = true → n.length ≤ h.length := by
  intro n
  induction n with
  | nil => intro h _; exact Nat.zero_le _
  | cons a as ih =>
    intro h hm
    cases h with
    | nil => simp [listLeadMatch] at hm
    | cons b bs =>
      simp only [listLeadMatch, Bool.and_eq_true] at hm
      simpa [List.length_cons] using ih bs hm.2

theorem listHasSub_length {α : Type} [DecidableEq α] :
    ∀ (h n : List α), listHasSub n h = true → n.length ≤ h.length := by
  intro h
  induction h with
  | nil =>
    intro n hm
    simp only [listHasSub, List.isEmpty_iff] at hm
    simp [hm]
  | cons b bs ih =>
    intro n hm
    simp only [listHasSub, Bool.or_eq_true] at hm
    rcases hm with hm | hm
    · exact listLeadMatch_length n (b :: bs) hm
    · exact Nat.le_succ_of_le (ih n hm)

theorem strContainsSub_length {hay needle : String}
    (h : strContainsSub hay needle = true) : needle.data.length ≤ hay.data.length :=
  listHasSub_length hay.data needle.data h

/-! ### C6 and C8 -/

/-- C6 (amended): whenever a playlist_explorer session of yt-browser2.py
ends normally, the window bounds are reset to PLAYLIST_START = 1 and
PLAYLIST_END = one page size, but the toggles are not reset: the trailing
reset writes only the window, leaving AUDIO_ONLY_MODE and AUTOPLAY_MODE
at their current values (see the counterexample for a session ending with
AUDIO_ONLY_MODE still true); within the session, the toggles persist
across page transitions (Next and Previous leave them unchanged). -/
theorem c6_session_end_reset :
    (∀ (P : Int) (player url ddir : String) (fuel : Nat) (g : Globals2)
       (res : Option (List Entry)) (sels : List String) (fts : List FetchOutcome)
       (effs effs2 : List Effect2) (g2 : Globals2),
       sessionRun2 P player url ddir fuel g res sels fts effs = (.done g2, effs2) →
       g2.window = ⟨1, P⟩) ∧
    (∀ (P : Int) (g : Globals2),
       (resetBounds2 P g).window = ⟨1, P⟩ ∧
       (resetBounds2 P g).audioOnlyMode = g.audioOnlyMode ∧
       (resetBounds2 P g).autoplayMode = g.autoplayMode) ∧
    (∀ (P : Int) (g : Globals2),
       (applyNext2 P g).audioOnlyMode = g.audioOnlyMode ∧
       (applyNext2 P g).autoplayMode = g.autoplayMode ∧
       (applyPrev2 P g).audioOnlyMode = g.audioOnlyMode ∧
       (applyPrev2 P g).autoplayMode = g.autoplayMode) := by
  refine ⟨?_, fun P g => ⟨rfl, rfl, rfl⟩, fun P g => ⟨rfl, rfl, rfl, rfl⟩⟩
  intro P player url ddir fuel g res sels fts effs effs2 g2 h
  unfold sessionRun2 at h
  rcases hc : pageCore2 P player url ddir fuel g res sels fts effs with ⟨le, e⟩
  rw [hc] at h
  cases le with
  | broke gb =>
    simp only [Prod.mk.injEq, Session2.done.injEq] at h
    rw [← h.1]
    rfl
  | terminated => simp at h
  | fuelOut g3 => simp at h
  | inputOut g3 => simp at h

/-- Witness for C6: a session that breaks at once (missing payload) with
AUDIO_ONLY_MODE true ends with the window reset to (1, 30). -/
theorem c6_session_end_reset_witness :
    (Globals2.mk ⟨1, 30⟩ true false).window = ⟨1, 30⟩ :=
  c6_session_end_reset.1 30 "mpv" "u" "d" 1 ⟨⟨5, 34⟩, true, false⟩ none [] [] [] []
    ⟨⟨1, 30⟩, true, false⟩ rfl

/-- C6 counterexample: a session of yt-browser2.py that selects item 1,
toggles audio-only, and backs out of both menus ends with the window
reset to (1, 30) but with AUDIO_ONLY_MODE still true, not back at its
initial false value. -/
theorem c6_counterexample :
    sessionRun2 30 "mpv" "u" "d" 5 ⟨⟨1, 30⟩, false, false⟩ (some [⟨"T", "vu"⟩])
        ["01 T", "Toggle Audio Only [ ]", "Back", "Back"] [] [] =
      (.done ⟨⟨1, 30⟩, true, false⟩, []) ∧
    (true : Bool) ≠ false :=
  ⟨by decide, by decide⟩

/-- C8: in the item menu of yt-browser2.py, a Toggle Audio Only selection
flips AUDIO_ONLY_MODE and changes nothing else; the Watch mpv command
carries the audio-only arguments exactly when AUDIO_ONLY_MODE is true;
and a Watch action (with autoplay off, the default) spawns the player
built from the current toggle value and leaves the globals, in particular
AUDIO_ONLY_MODE, unchanged, so the toggle persists across repeated Watch
invocations until toggled again. -/
theorem c8_audio_toggle_and_watch :
    (∀ (P : Int) (player url ddir : String) (fuel : Nat) (g : Globals2)
       (res : Option (List Entry)) (entries : List Entry) (idx : Nat) (video : Entry)
       (ct aRaw : String) (restSels : List String) (fts : List FetchOutcome)
       (effs : List Effect2),
       strContainsSub (String.mk (subDotSpaces aRaw.data)) "Toggle Audio Only" = true →
       action2 P player url ddir (fuel + 1) g res entries idx video ct
           (aRaw :: restSels) fts effs =
         action2 P player url ddir fuel { g with audioOnlyMode := !g.audioOnlyMode }
           res entries idx video ct restSels fts effs) ∧
    (∀ (u t : String) (audio : Bool),
       (["--no-video", "--force-window=no"] <:+ playerCmd "mpv" u t audio) ↔ audio = true) ∧
    (∀ (P : Int) (player url : String) (fuel : Nat) (g : Globals2)
       (res : Option (List Entry)) (entries : List Entry) (idx : Nat) (video : Entry)
       (ct : String) (fts : List FetchOutcome) (effs : List Effect2),
       g.autoplayMode = false →
       watch2 P player url (fuel + 1) g res entries idx video ct fts effs =
         ⟨g, res, entries, idx, video, ct, fts,
          effs ++ [Effect2.spawn (playerCmd player video.url ct g.audioOnlyMode)]⟩) := by
  refine ⟨?_, ?_, ?_⟩
  · intro P player url ddir fuel g res entries idx video ct aRaw restSels fts effs hT
    have hne1 : ¬ (String.mk (subDotSpaces aRaw.data) = "Exit") := by
      intro h
      rw [h] at hT
      exact absurd hT (by decide)
    have hne2 : ¬ (String.mk (subDotSpaces aRaw.data) = "Back" ∨
        String.mk (subDotSpaces aRaw.data) = "") := by
      rintro (h | h) <;> rw [h] at hT <;> exact absurd hT (by decide)
    simp only [action2, if_neg hne1, if_neg hne2, hT, if_pos]
  · intro u t audio
    cases audio with
    | true => exact iff_of_true ⟨["mpv", u], rfl⟩ rfl
    | false =>
      have hcmd : playerCmd "mpv" u t false = ["mpv", u] := rfl
      rw [hcmd]
      simp only [Bool.false_eq_true, iff_false]
      rintro ⟨pre, hpre⟩
      rcases pre with _ | ⟨a, as⟩
      · simp only [List.nil_append, List.cons.injEq] at hpre
        exact absurd hpre.1 (by decide)
      · have hlen := congrArg List.length hpre
        simp only [List.length_append, List.length_cons, List.length_nil] at hlen
        omega
  · intro P player url fuel g res entries idx video ct fts effs h
    simp only [watch2, h]
    rfl

/-- Witness for C8: a toggle selection labelled Toggle Audio Only flips
the toggle, the audio arguments are a suffix of the mpv command when the
toggle is on, and a Watch with autoplay off spawns the player and keeps
the globals. -/
theorem c8_audio_toggle_and_watch_witness :
    action2 30 "mpv" "u" "d" 1 ⟨⟨1, 30⟩, false, false⟩ none [] 0 ⟨"T", "vu"⟩ "T"
        ["Toggle Audio Only [ ]"] [] [] =
      action2 30 "mpv" "u" "d" 0 ⟨⟨1, 30⟩, true, false⟩ none [] 0 ⟨"T", "vu"⟩ "T" [] [] [] ∧
    (["--no-video", "--force-window=no"] <:+ playerCmd "mpv" "vu" "T" true) ∧
    watch2 30 "mpv" "u" 1 ⟨⟨1, 30⟩, true, false⟩ none [] 0 ⟨"T", "vu"⟩ "T" [] [] =
      ⟨⟨⟨1, 30⟩, true, false⟩, none, [], 0, ⟨"T", "vu"⟩, "T", [],
       [Effect2.spawn (playerCmd "mpv" "vu" "T" true)]⟩ := by
  refine ⟨?_, ?_, ?_⟩
  · exact c8_audio_toggle_and_watch.1 30 "mpv" "u" "d" 0 ⟨⟨1, 30⟩, false, false⟩ none [] 0
      ⟨"T", "vu"⟩ "T" "Toggle Audio Only [ ]" [] [] [] (by decide)
  · exact (c8_audio_toggle_and_watch.2.1 "vu" "T" true).mpr rfl
  · have h := c8_audio_toggle_and_watch.2.2 30 "mpv" "u" 0 ⟨⟨1, 30⟩, true, false⟩ none [] 0
      ⟨"T", "vu"⟩ "T" [] [] rfl
    simpa using h

/-! ## fibonacci.py -/

/-- Textbook Fibonacci sequence as a list: n terms starting from a, b. -/
def fibFrom (a b : Nat) : Nat → List Nat
  | 0 => []
  | k + 1 => a :: fibFrom b (a + b) k

/-- The first n textbook Fibonacci numbers 0, 1, 1, 2, 3, 5 and so on. -/
def fibList (n : Nat) : List Nat := fibFrom 0 1 n

/-- The numbers printed by the main loop of fibonacci.py (lines 37-50)
for an accepted input of at least 3: starting from secondTolastNumber 0,
lastNumber 1 and a counter at 2, each iteration prints the sum and stops
when the counter reaches the input, so n minus 2 sums are printed. -/
def fibLoopNums (a b : Nat) : Nat → List Nat
  | 0 => []
  | k + 1 => (a + b) :: fibLoopNums b (a + b) k

/-- The comma-separated sequence printed by fibonacci.py for an accepted
input n (lines 18-47): the branch for n = 1 prints the digit 0, the
branch for n = 2 prints the literal letter o then comma 1 (line 24), and
for larger n the literal letter-o prefix of line 35 is followed by the
loop numbers joined by comma-space. -/
def programFibOutput (n : Nat) : String :=
  if n = 1 then "0"
  else if n = 2 then "o, 1"
  else "o, 1, " ++ String.intercalate ", " ((fibLoopNums 0 1 (n - 2)).map toString)

/-- The list output the claim describes: the first n textbook Fibonacci
numbers as a comma-separated list. -/
def specFibOutput (n : Nat) : String :=
  String.intercalate ", " ((fibList n).map toString)

/-- C9 evaluation at the failing input N = 2: fibonacci.py prints the
letter o instead of the digit 0 as the first element of the sequence
(the same slip affects every N of at least 2 through line 35), so the
printed list differs from the textbook sequence 0, 1 the claim and the
programs own N = 1 branch describe. -/
theorem c9_fibonacci_letter_o_bug :
    programFibOutput 2 = "o, 1" ∧ specFibOutput 2 = "0, 1" ∧
    programFibOutput 2 ≠ specFibOutput 2 :=
  ⟨by decide, by decide, by decide⟩

end Myconfigs
